import Mathlib

/-!
Verification of the ConCoord nameserver (`concoord/nameserver.py`).

The Python module answers DNS queries about a replicated cluster: for each
question of an inbound query it decides whether the question is in scope and
of a supported record type, renders an answer section from the current replica
view, assembles a textual response, and finally sends the response built from
the last processed question.  It also maintains a daily zone-revision string
`YYYYMMDD` + serial used in SOA answers.

This file is a shallow embedding of that module: every definition below is a
direct translation of the corresponding Python function; the clock
(`strftime("%Y%m%d", gmtime())`) becomes an explicit `today : String`
argument, the wire/socket layer is dropped, and "no response is sent" is
modelled as `none`.
-/

namespace Concoord

/-- DNS record-type numbers as used by `dns.rdatatype`:
`A = 1`, `NS = 2`, `SOA = 6`, `TXT = 16`, `AAAA = 28`, `SRV = 33`. -/
def rdA : Nat := 1

def rdNS : Nat := 2

def rdSOA : Nat := 6

def rdTXT : Nat := 16

def rdAAAA : Nat := 28

def rdSRV : Nat := 33

/-- `RRTYPE` table from the Python module (index = record-type number). -/
def RRTYPE : List String :=
  ["", "A", "NS", "MD", "MF", "CNAME", "SOA", "MB", "MG", "MR", "NULL",
   "WKS", "PTR", "HINFO", "MINFO", "MX", "TXT", "RP", "AFSDB",
   "X25", "ISDN", "RT", "NSAP", "NSAP_PTR", "SIG", "KEY", "PX",
   "GPOS", "AAAA", "LOC", "NXT", "", "", "SRV"]

/-- `RRCLASS` table from the Python module. -/
def RRCLASS : List String := ["", "IN", "CS", "CH", "HS"]

/-- `OPCODES` table from the Python module. -/
def OPCODES : List String := ["QUERY", "IQUERY", "STATUS"]

/-- `RCODES` table from the Python module. -/
def RCODES : List String :=
  ["NOERROR", "FORMERR", "SERVFAIL", "NXDOMAIN", "NOTIMP", "REFUSED"]

/-- `RRTYPE[i]` (indexing a list literal; in-range in every reachable call). -/
def rrtypeName (i : Nat) : String := RRTYPE.getD i ("")

/-- `RRCLASS[i]`. -/
def rrclassName (i : Nat) : String := RRCLASS.getD i ("")

/-- A cluster member as the nameserver sees it: `peer.addr`, `peer.port`,
`peer.type` (the role tag). -/
structure Replica where
  addr : String
  port : Nat
  type : Nat
deriving DecidableEq

/-- One question of an inbound query: `question.name` (in canonical dotted
text form) and `question.rdtype`. -/
structure Question where
  name : String
  rdtype : Nat
deriving DecidableEq

/-- The nameserver state relevant to query handling: the configured domain
names, the `'.ipaddr.' + domain + '.'` suffix, the replica view and the zone
revision. -/
structure Nameserver where
  mydomain : String
  mysrvdomain : String
  ipconverter : String
  replicas : List Replica
  revision : String
deriving DecidableEq

/-- Python `c` of a digit character to its value (used by `int(...)` on the
revision's digit characters). -/
def digitVal (c : Char) : Nat := c.toNat - 48

/-- `int(self.revision[-2] + self.revision[-1])`: the number formed by the
last two characters of the revision string. -/
def lastTwoVal (s : String) : Nat :=
  match s.data.reverse with
  | c0 :: c1 :: _ => digitVal c1 * 10 + digitVal c0
  | _ => 0

/-- `str(n).zfill(2)`: the decimal rendering of `n` left-padded with zeros to
at least two characters. -/
def zfill2 (n : Nat) : String :=
  if (Nat.repr n).length < 2 then ("0") ++ Nat.repr n else Nat.repr n

/-- Python substring containment (`pat in hay`) on character lists. -/
def listContains : List Char → List Char → Bool
  | [], pat => pat.isPrefixOf ([])
  | c :: t, pat => pat.isPrefixOf (c :: t) || listContains t pat

/-- Python substring containment (`pat in hay`) on strings. -/
def strContains (hay pat : String) : Bool := listContains hay.data pat.data

/-- `Nameserver.__init__`, line 63: the revision starts as `<today>00`. -/
def initRevision (today : String) : String := today ++ ("00")

/-- `Nameserver.update` with the call to `strftime("%Y%m%d", gmtime())` made
explicit as `today`: if today's date string occurs in the stored revision the
number formed by the revision's last two characters is incremented and
re-stamped with today's date, otherwise the revision resets to `<today>00`. -/
def update (today rev : String) : String :=
  if strContains rev today then today ++ zfill2 (lastTwoVal rev + 1)
  else today ++ ("00")

/-- `k` successive `update` calls on the fixed day `today`, starting from the
freshly constructed revision. -/
def updN (today : String) : Nat → String
  | 0 => initRevision today
  | n + 1 => update today (updN today n)

/-- Construction of the name configuration (`Nameserver.__init__`, lines
37-43, for a dotted domain): `mydomain` is the canonical text of
`domain + '.'`, `mysrvdomain` of `'_concoord._tcp.' + domain + '.'`, and
`ipconverter` is `'.ipaddr.' + domain + '.'`. -/
def mkNameserver (domain : String) (replicas : List Replica) (today : String) :
    Nameserver :=
  { mydomain := domain ++ (".")
    mysrvdomain := ("_concoord._tcp.") ++ domain ++ (".")
    ipconverter := (".ipaddr.") ++ domain ++ (".")
    replicas := replicas
    revision := initRevision today }

/-- Modelled from the spec: `get_addresses` (imported from `concoord.utils`,
not part of this repository snapshot) returns the addresses of the replicas in
view order. -/
def get_addresses (rs : List Replica) : List String := rs.map (fun r => r.addr)

/-- Modelled from the spec: `get_addressportpairs` (imported from
`concoord.utils`) returns the `(address, port)` pairs of the replicas in view
order. -/
def get_addressportpairs (rs : List Replica) : List (String × Nat) :=
  rs.map (fun r => (r.addr, r.port))

/-- Modelled from the spec: `NODE_NAMESERVER` (from `concoord.enums`) is the
role tag marking nameserver-capable nodes; its numeric value is irrelevant to
the claims below. -/
def NODE_NAMESERVER : Nat := 3

/-- `Nameserver.aresponse`: the replica addresses, in view order. -/
def aresponse (ns : Nameserver) : List String := get_addresses ns.replicas

/-- `Nameserver.nsresponse`: addresses of the replicas whose role is
`NODE_NAMESERVER`, in view order. -/
def nsresponse (ns : Nameserver) : List String :=
  (ns.replicas.filter (fun r => r.type == NODE_NAMESERVER)).map
    (fun r => r.addr)

/-- `Nameserver.srvresponse`: each `(address, port)` pair with the
`ipconverter` suffix appended to the address. -/
def srvresponse (ns : Nameserver) : List (String × Nat) :=
  (get_addressportpairs ns.replicas).map
    (fun ap => (ap.1 ++ ns.ipconverter, ap.2))

/-- `Nameserver.txtresponse` with `node_names` (from `concoord.enums`, not in
this snapshot) passed explicitly: one `'<role-name> <addr>:<port>;'` chunk per
replica, accumulated left to right, then the last character dropped
(`txtstr[:-1]`). -/
def txtresponse (nodeNames : Nat → String) (replicas : List Replica) : String :=
  String.mk
    ((replicas.foldl
        (fun acc p =>
          acc ++ nodeNames p.type ++ (" ") ++ p.addr ++ (":") ++
            Nat.repr p.port ++ (";"))
        ("")).data.dropLast)

/-- `Nameserver.ismydomainname`. -/
def ismydomainname (ns : Nameserver) (q : Question) : Bool :=
  q.name == ns.mydomain || (q.rdtype == rdSRV && q.name == ns.mysrvdomain)

/-- `Nameserver.should_answer`. -/
def should_answer (ns : Nameserver) (q : Question) : Bool :=
  (q.rdtype == rdAAAA || q.rdtype == rdA || q.rdtype == rdTXT ||
    q.rdtype == rdNS || q.rdtype == rdSRV || q.rdtype == rdSOA) &&
    ismydomainname ns q

/-- Python `'%s' % txt` for the `txt` argument of `create_answer_section`
(`None` renders as `"None"`). -/
def pyStrOpt : Option String → String
  | some s => s
  | none => "None"

/-- `Nameserver.create_answer_section`.  The local `resp` is assigned only in
the `A`, `TXT` and `NS` branches; a call with any other record type raises
`UnboundLocalError` in Python, modelled here as `none`. -/
def create_answer_section (q : Question) (ttl rrclass : Nat) (addr : String)
    (txt : Option String) : Option String :=
  let respQ : Option String :=
    if q.rdtype = rdA then some addr
    else if q.rdtype = rdTXT then some (("\"") ++ pyStrOpt txt ++ ("\""))
    else if q.rdtype = rdNS then some addr
    else none
  match respQ with
  | none => none
  | some resp =>
      some (q.name ++ (" ") ++ Nat.repr ttl ++ (" ") ++ rrclassName rrclass ++
        (" ") ++ rrtypeName q.rdtype ++ (" ") ++ resp ++ ("\n"))

/-- `Nameserver.create_srv_answer_section`. -/
def create_srv_answer_section (q : Question)
    (ttl rrclass priority weight port : Nat) (addr : String) : String :=
  q.name ++ (" ") ++ Nat.repr ttl ++ (" ") ++ rrclassName rrclass ++ (" ") ++
    rrtypeName q.rdtype ++ (" ") ++ Nat.repr priority ++ (" ") ++
    Nat.repr weight ++ (" ") ++ Nat.repr port ++ (" ") ++ addr ++ ("\n")

/-- `Nameserver.create_soa_answer_section`. -/
def create_soa_answer_section (ns : Nameserver) (q : Question)
    (ttl rrclass : Nat) : String :=
  q.name ++ (" ") ++ Nat.repr ttl ++ (" ") ++ rrclassName rrclass ++ (" ") ++
    rrtypeName q.rdtype ++ (" ") ++ ns.mydomain ++ (" ") ++
    (("dns-admin.") ++ ns.mydomain) ++ (" (") ++ ns.revision ++ (" ") ++
    Nat.repr 86000 ++ (" ") ++ Nat.repr 7200 ++ (" ") ++ Nat.repr 360000 ++
    (" ") ++ Nat.repr 432000 ++ (")")

/-- `Nameserver.create_response`: the `;ANSWER`, `;AUTHORITY` and
`;ADDITIONAL` sections are emitted only when their content is not the empty
string; the header fields and the `;QUESTION` section are always emitted. -/
def create_response (id : Nat) (opcode rcode : Nat)
    (flags question answer authority additional : String) : String :=
  let answerstr :=
    if answer ≠ ("") then (";ANSWER\n") ++ answer ++ ("\n") else ("")
  let authoritystr :=
    if authority ≠ ("") then (";AUTHORITY\n") ++ authority ++ ("\n") else ("")
  let additionalstr :=
    if additional ≠ ("") then (";ADDITIONAL\n") ++ additional ++ ("\n")
    else ("")
  ("id ") ++ Nat.repr id ++ ("\nopcode ") ++ OPCODES.getD opcode ("") ++
    ("\nrcode ") ++ RCODES.getD rcode ("") ++ ("\nflags ") ++ flags ++
    ("\n;QUESTION\n") ++ question ++ ("\n") ++ answerstr ++ authoritystr ++
    additionalstr

/-- Concatenation of the `Option`-valued answer chunks accumulated by
`answerstr += create_answer_section(...)`; any failing chunk (an unreachable
`UnboundLocalError`) poisons the whole section. -/
def optConcat : List (Option String) → Option String
  | [] => some ("")
  | p :: ps =>
      Option.bind p (fun s => Option.bind (optConcat ps) (fun t => some (s ++ t)))

/-- Plain concatenation of a list of strings. -/
def strJoin : List String → String
  | [] => ("")
  | s :: rest => s ++ strJoin rest

/-- `question.to_text()`: the textual rendering of the echoed question. -/
def questionText (q : Question) : String :=
  q.name ++ (" IN ") ++ rrtypeName q.rdtype

/-- The response flags chosen by `handle_query`: initialised to `'QR AA'` and
overwritten with `'QR'` in the `AAAA` branch. -/
def flagsFor (q : Question) : String :=
  if q.rdtype = rdAAAA then ("QR") else ("QR AA")

/-- The `answerstr` built by `handle_query` for one answerable question,
following the `rdtype` dispatch of lines 127-147.  Record types outside the
six branches leave `answerstr` empty. -/
def answerFor (ns : Nameserver) (nodeNames : Nat → String) (q : Question) :
    Option String :=
  if q.rdtype = rdAAAA then some ("")
  else if q.rdtype = rdA then
    optConcat ((aresponse ns).map
      (fun address => create_answer_section q 30 1 address none))
  else if q.rdtype = rdTXT then
    create_answer_section q 30 1 ("") (some (txtresponse nodeNames ns.replicas))
  else if q.rdtype = rdNS then
    optConcat ((nsresponse ns).map
      (fun address => create_answer_section q 30 1 address none))
  else if q.rdtype = rdSOA then some (create_soa_answer_section ns q 30 1)
  else if q.rdtype = rdSRV then
    some (strJoin ((srvresponse ns).map
      (fun ap => create_srv_answer_section q 30 1 0 100 ap.2 ap.1)))
  else some ("")

/-- The `responsestr` that `handle_query` builds for one answerable question
(lines 148-152): `create_response` with opcode `QUERY`, rcode `NOERROR`, the
computed flags and answer section, and empty authority/additional sections. -/
def responseFor (ns : Nameserver) (nodeNames : Nat → String) (id : Nat)
    (q : Question) : Option String :=
  match answerFor ns nodeNames q with
  | none => none
  | some ans =>
      some (create_response id 0 0 (flagsFor q) (questionText q) ans ("") (""))

/-- The question loop of `handle_query`: each answerable question overwrites
`response` with the response built from that question alone; an unanswerable
question makes the handler return without sending (`none`). -/
def handleQuestions (ns : Nameserver) (nodeNames : Nat → String) (id : Nat) :
    List Question → String → Option String
  | [], resp => some resp
  | q :: rest, _resp =>
      if should_answer ns q then
        match responseFor ns nodeNames id q with
        | some r => handleQuestions ns nodeNames id rest r
        | none => none
      else none

/-- `Nameserver.handle_query`: starting from the library-built skeleton
response `initResp` (`dns.message.make_response(query)`), process the
questions in order; `some r` is the textual response finally sent,
`none` means no datagram is sent. -/
def handle_query (ns : Nameserver) (nodeNames : Nat → String) (id : Nat)
    (qs : List Question) (initResp : String) : Option String :=
  handleQuestions ns nodeNames id qs initResp

/-- Specification-side rendering of one replica as a TEXT segment:
`"<role-name> <address>:<port>"`. -/
def replicaSegment (nodeNames : Nat → String) (p : Replica) : String :=
  nodeNames p.type ++ (" ") ++ p.addr ++ (":") ++ Nat.repr p.port

/-- Specification-side semicolon join: one segment per list element, in
order, with no trailing semicolon. -/
def semijoin : List String → String
  | [] => ("")
  | [s] => s
  | s :: rest => s ++ (";") ++ semijoin rest

/-- Specification-side single TEXT answer record with the given payload. -/
def txtAnswerLine (q : Question) (payload : String) : String :=
  q.name ++ (" ") ++ Nat.repr 30 ++ (" ") ++ ("IN") ++ (" ") ++ ("TXT") ++
    (" ") ++ (("\"") ++ payload ++ ("\"")) ++ ("\n")

/-- Specification-side single ADDRESS answer record with the given payload. -/
def addrAnswerLine (q : Question) (payload : String) : String :=
  q.name ++ (" ") ++ Nat.repr 30 ++ (" ") ++ ("IN") ++ (" ") ++ ("A") ++
    (" ") ++ payload ++ ("\n")

/-- Specification-side single SERVICE answer record: owner is the queried
name, priority 0, weight 100, then the port and the target. -/
def srvAnswerLine (q : Question) (port : Nat) (target : String) : String :=
  q.name ++ (" ") ++ Nat.repr 30 ++ (" ") ++ ("IN") ++ (" ") ++ ("SRV") ++
    (" ") ++ Nat.repr 0 ++ (" ") ++ Nat.repr 100 ++ (" ") ++ Nat.repr port ++
    (" ") ++ target ++ ("\n")

/-- Specification-side response header: id, opcode, rcode, flags and the
question section, always present. -/
def responseHeader (id : Nat) (opcode rcode : Nat) (flags question : String) :
    String :=
  ("id ") ++ Nat.repr id ++ ("\nopcode ") ++ OPCODES.getD opcode ("") ++
    ("\nrcode ") ++ RCODES.getD rcode ("") ++ ("\nflags ") ++ flags ++
    ("\n;QUESTION\n") ++ question ++ ("\n")

/-- Concrete role-name table used in the sample configuration below. -/
def nn0 : Nat → String := fun _ => "replica"

/-- Sample replica on port 14000. -/
def rep1 : Replica := { addr := "10.0.0.1", port := 14000, type := 1 }

/-- Sample nameserver-capable replica on port 14001. -/
def rep2 : Replica := { addr := "10.0.0.2", port := 14001, type := 3 }

/-- Sample nameserver configured for the domain `concoord.com` with two
replicas, started on 2024-06-01. -/
def ns0 : Nameserver := mkNameserver ("concoord.com") [rep1, rep2] ("20240601")

/-- Sample ADDRESS question for the configured domain. -/
def qA : Question := { name := "concoord.com.", rdtype := 1 }

/-- Sample TEXT question for the configured domain. -/
def qT : Question := { name := "concoord.com.", rdtype := 16 }

/-- Sample SERVICE question for the service-discovery subdomain. -/
def qS : Question := { name := "_concoord._tcp.concoord.com.", rdtype := 33 }

/-- Sample ADDRESS6 question for the configured domain. -/
def q6 : Question := { name := "concoord.com.", rdtype := 28 }

/-- Sample MX question: in-scope name but unsupported record type. -/
def qMX : Question := { name := "concoord.com.", rdtype := 15 }

/-- Sample ZONE_AUTHORITY question for the configured domain. -/
def qSOA : Question := { name := "concoord.com.", rdtype := 6 }

/-! ## Helper lemmas -/

theorem listContains_of_isPrefixOf {l p : List Char}
    (h : p.isPrefixOf l = true) : listContains l p = true := by
  cases l with
  | nil => simpa [listContains] using h
  | cons c t => simp [listContains, h]

theorem strContains_append_left (d s : String) :
    strContains (d ++ s) d = true := by
  apply listContains_of_isPrefixOf
  rw [String.data_append, List.isPrefixOf_iff_prefix]
  exact List.prefix_append d.data s.data

theorem zfill2_len : ∀ k, k < 100 → (zfill2 k).data.length = 2 := by decide

theorem lastTwoVal_zfill2 : ∀ k, k < 100 → lastTwoVal (zfill2 k) = k := by
  decide

theorem lastTwoVal_append2 (d s : String) (h : s.data.length = 2) :
    lastTwoVal (d ++ s) = lastTwoVal s := by
  rcases hs : s.data with _ | ⟨c1, _ | ⟨c0, rest⟩⟩
  · rw [hs] at h; simp at h
  · rw [hs] at h; simp at h
  · have hr : rest = [] := by rw [hs] at h; simpa using h
    subst hr
    unfold lastTwoVal
    rw [String.data_append, hs]
    simp [List.reverse_append]

theorem updN_eq_zfill (d : String) : ∀ k, k ≤ 99 → updN d k = d ++ zfill2 k := by
  intro k
  induction k with
  | zero =>
    intro _
    have h0 : zfill2 0 = ("00") := by decide
    rw [updN, initRevision, h0]
  | succ k ih =>
    intro hk
    have hk' : k ≤ 99 := Nat.le_of_succ_le hk
    rw [updN, ih hk', update]
    rw [strContains_append_left]
    simp only [if_true]
    rw [lastTwoVal_append2 _ _ (zfill2_len k (by omega)),
      lastTwoVal_zfill2 k (by omega)]

/-! ## C2: zone revision state machine -/

set_option maxRecDepth 80000 in
/-- C2 (counterexample): the claim says every same-day `update()` replaces the
serial with its successor, keeping a strictly increasing two-digit serial.  On
day 20240601, the 100th same-day update produces revision `20240601100` — an
eleven-character string whose serial `100` is not two digits — and the 101st
update produces `2024060101`, whose serial 01 is smaller than the previous
serial, not its successor. -/
theorem revision_update_counterexample :
    updN ("20240601") 100 = "20240601100" ∧
      (updN ("20240601") 100).data.length = 11 ∧
      updN ("20240601") 101 = "2024060101" := by
  refine ⟨by decide, by decide, by decide⟩

/-- C2 (amended): at construction the revision is `<today>00`; for the first
99 update calls on the construction day the revision after the `k`-th call is
`<today>` followed by the two-digit rendering of `k`, so the serial starts at
00 and strictly increases by one per call (beyond 99 calls the serial
overflows to three digits and then wraps, see the counterexample); an
`update()` on a day whose date string does not occur inside the stored
revision resets the revision to `<today>00` (the day comparison is a
substring test, not an equality of the date prefix). -/
theorem revision_update_amended (d rev : String) (k : Nat) (hk : k ≤ 99)
    (hrev : strContains rev d = false) :
    updN d k = d ++ zfill2 k ∧ lastTwoVal (updN d k) = k ∧
      update d rev = d ++ ("00") := by
  refine ⟨updN_eq_zfill d k hk, ?_, ?_⟩
  · rw [updN_eq_zfill d k hk,
      lastTwoVal_append2 _ _ (zfill2_len k (by omega)),
      lastTwoVal_zfill2 k (by omega)]
  · rw [update, hrev]
    simp

/-- C2 (witness): the amended theorem applied on day 20240601 after 3 updates,
with a stored revision `19990101xy` in which `20240601` does not occur. -/
theorem revision_update_amended_witness :
    (3 ≤ 99 ∧ strContains ("19990101xy") ("20240601") = false) ∧
      (updN ("20240601") 3 = ("20240601") ++ zfill2 3 ∧
        lastTwoVal (updN ("20240601") 3) = 3 ∧
        update ("20240601") ("19990101xy") = ("20240601") ++ ("00")) :=
  ⟨⟨by decide, by decide⟩,
    revision_update_amended ("20240601") ("19990101xy") 3 (by decide)
      (by decide)⟩

/-! ## Record-table evaluations and answer-section lemmas -/

theorem rrclassName_one : rrclassName 1 = ("IN") := rfl

theorem rrtypeName_A : rrtypeName rdA = ("A") := rfl

theorem rrtypeName_TXT : rrtypeName rdTXT = ("TXT") := rfl

theorem rrtypeName_SRV : rrtypeName rdSRV = ("SRV") := rfl

theorem create_answer_section_A30 (q : Question) (addr : String)
    (txt : Option String) (h : q.rdtype = rdA) :
    create_answer_section q 30 1 addr txt = some (addrAnswerLine q addr) := by
  simp [create_answer_section, addrAnswerLine, h, rrclassName_one,
    rrtypeName_A]

theorem create_answer_section_TXT30 (q : Question) (addr payload : String)
    (h : q.rdtype = rdTXT) :
    create_answer_section q 30 1 addr (some payload) =
      some (txtAnswerLine q payload) := by
  simp only [create_answer_section, txtAnswerLine, pyStrOpt, h,
    rrclassName_one, rdA, rdTXT]
  rfl

theorem optConcat_map_some {α : Type} (f : α → String) :
    ∀ l : List α,
      optConcat (l.map (fun a => some (f a))) = some (strJoin (l.map f)) := by
  intro l
  induction l with
  | nil => rfl
  | cons a t ih => simp [optConcat, strJoin, ih]

theorem answerFor_isSome (ns : Nameserver) (nn : Nat → String)
    (q : Question) : (answerFor ns nn q).isSome = true := by
  unfold answerFor
  by_cases h28 : q.rdtype = rdAAAA
  · simp [h28]
  rw [if_neg h28]
  by_cases h1 : q.rdtype = rdA
  · rw [if_pos h1,
      List.map_congr_left
        (fun a _ => create_answer_section_A30 q a none h1),
      optConcat_map_some]
    rfl
  rw [if_neg h1]
  by_cases h16 : q.rdtype = rdTXT
  · rw [if_pos h16,
      create_answer_section_TXT30 q ("") (txtresponse nn ns.replicas) h16]
    rfl
  rw [if_neg h16]
  by_cases h2 : q.rdtype = rdNS
  · have hNS : ∀ a, create_answer_section q 30 1 a none =
        some (q.name ++ (" ") ++ Nat.repr 30 ++ (" ") ++ ("IN") ++ (" ") ++
          rrtypeName q.rdtype ++ (" ") ++ a ++ ("\n")) := by
      intro a
      simp [create_answer_section, h2, rdA, rdTXT, rdNS, rrclassName_one]
    rw [if_pos h2, List.map_congr_left (fun a _ => hNS a),
      optConcat_map_some]
    rfl
  rw [if_neg h2]
  by_cases h6 : q.rdtype = rdSOA
  · simp [h6]
  rw [if_neg h6]
  by_cases h33 : q.rdtype = rdSRV
  · simp [h33]
  · rw [if_neg h33]
    rfl

theorem responseFor_isSome (ns : Nameserver) (nn : Nat → String) (id : Nat)
    (q : Question) : (responseFor ns nn id q).isSome = true := by
  unfold responseFor
  obtain ⟨a, ha⟩ := Option.isSome_iff_exists.mp (answerFor_isSome ns nn q)
  rw [ha]
  rfl

/-! ## C3: the query classifier -/

/-- C3: a question is answered iff its record type is one of A (ADDRESS),
AAAA (ADDRESS6), TXT (TEXT), NS (NAME_SERVER), SRV (SERVICE), SOA
(ZONE_AUTHORITY) and its name equals the configured domain, or its type is
SRV and its name equals the service-discovery subdomain. -/
theorem should_answer_iff (ns : Nameserver) (q : Question) :
    should_answer ns q = true ↔
      ((q.rdtype = rdA ∨ q.rdtype = rdAAAA ∨ q.rdtype = rdTXT ∨
          q.rdtype = rdNS ∨ q.rdtype = rdSRV ∨ q.rdtype = rdSOA) ∧
        (q.name = ns.mydomain ∨
          (q.rdtype = rdSRV ∧ q.name = ns.mysrvdomain))) := by
  simp only [should_answer, ismydomainname, Bool.and_eq_true, Bool.or_eq_true,
    beq_iff_eq]
  tauto

/-! ## C10: the unassigned-payload branch is unreachable -/

/-- C10: `create_answer_section` produces a defined result exactly for the
record types A, TXT and NS in which its `resp` local is assigned, and the
dispatcher never reaches the undefined branch: the answer section it builds
for any question is always defined. -/
theorem create_answer_section_defined :
    (∀ (q : Question) (ttl rrclass : Nat) (addr : String)
        (txt : Option String),
      (create_answer_section q ttl rrclass addr txt).isSome = true ↔
        (q.rdtype = rdA ∨ q.rdtype = rdTXT ∨ q.rdtype = rdNS)) ∧
    (∀ (ns : Nameserver) (nn : Nat → String) (q : Question),
      (answerFor ns nn q).isSome = true) := by
  constructor
  · intro q ttl rrclass addr txt
    unfold create_answer_section
    simp only [rdA, rdTXT, rdNS]
    by_cases h1 : q.rdtype = 1 <;> by_cases h16 : q.rdtype = 16 <;>
      by_cases h2 : q.rdtype = 2 <;> simp [h1, h16, h2]
  · exact answerFor_isSome

/-! ## C1: response withheld on unsupported questions -/

/-- C1 (counterexample): the claim says a response is withheld entirely only
when the query's only question is unsupported and that other supported
questions are still answered.  For a query with two questions — a supported
ADDRESS question followed by an in-scope MX question of unsupported type —
the handler sends nothing at all, although the first question is supported. -/
theorem unsupported_question_counterexample :
    should_answer ns0 qA = true ∧ should_answer ns0 qMX = false ∧
      handle_query ns0 nn0 7 [qA, qMX] ("init") = none := by
  refine ⟨by decide, by decide, by decide⟩

/-- C1 (amended): an unsupported or out-of-scope question produces no answer
section, but it also aborts the whole query: a response is sent iff every
question of the query is answerable, so a single unsupported question utterly
silences the query even when supported questions accompany it. -/
theorem response_sent_iff_all_answerable (ns : Nameserver)
    (nn : Nat → String) (id : Nat) (init : String) (qs : List Question) :
    (handle_query ns nn id qs init).isSome = true ↔
      ∀ q ∈ qs, should_answer ns q = true := by
  unfold handle_query
  induction qs generalizing init with
  | nil => simp [handleQuestions]
  | cons q rest ih =>
    by_cases hq : should_answer ns q = true
    · obtain ⟨r, hr⟩ :=
        Option.isSome_iff_exists.mp (responseFor_isSome ns nn id q)
      rw [handleQuestions, if_pos hq, hr]
      simp [ih, hq]
    · rw [handleQuestions, if_neg hq]
      simp [hq]

/-! ## C9: the last answerable question wins -/

theorem handleQuestions_last (ns : Nameserver) (nn : Nat → String) (id : Nat)
    (L : Question) (hL : should_answer ns L = true) :
    ∀ (qs : List Question) (init : String),
      (∀ q ∈ qs, should_answer ns q = true) →
      handleQuestions ns nn id (qs ++ [L]) init = responseFor ns nn id L := by
  intro qs
  induction qs with
  | nil =>
    intro init _
    obtain ⟨r, hr⟩ :=
      Option.isSome_iff_exists.mp (responseFor_isSome ns nn id L)
    simp [handleQuestions, hL, hr]
  | cons q t ih =>
    intro init hall
    have hq : should_answer ns q = true := hall q (by simp)
    obtain ⟨r, hr⟩ :=
      Option.isSome_iff_exists.mp (responseFor_isSome ns nn id q)
    rw [List.cons_append, handleQuestions, if_pos hq, hr]
    exact ih r (fun x hx => hall x (by simp [hx]))

/-- C9 (counterexample): the claim says a query with two or more answerable
questions gets a response rebuilt from the last answerable question.  For
the query `[qA, qMX, qT]` — two answerable questions around an in-scope MX
question of unsupported type — no response is sent at all, although the
response for the last answerable question exists. -/
theorem last_question_counterexample :
    should_answer ns0 qA = true ∧ should_answer ns0 qMX = false ∧
      should_answer ns0 qT = true ∧
      (responseFor ns0 nn0 7 qT).isSome = true ∧
      handle_query ns0 nn0 7 [qA, qMX, qT] ("init") = none := by
  refine ⟨by decide, by decide, by decide, by decide, by decide⟩

/-- C9 (amended): for a query of two or more questions that are all
answerable, the response finally sent is rebuilt from the last question
alone — the responses built for the earlier questions are discarded — and if
any question is unanswerable no response is sent at all. -/
theorem last_question_wins (ns : Nameserver) (nn : Nat → String) (id : Nat)
    (init : String) (qs : List Question) (L : Question) (_hne : qs ≠ [])
    (hall : ∀ q ∈ qs, should_answer ns q = true)
    (hL : should_answer ns L = true) :
    handle_query ns nn id (qs ++ [L]) init = responseFor ns nn id L :=
  handleQuestions_last ns nn id L hL qs init hall

/-- C9 (witness): the amended theorem applied to the two-question query
`[qA, qT]`. -/
theorem last_question_wins_witness :
    (([qA] : List Question) ≠ [] ∧
        (∀ q ∈ ([qA] : List Question), should_answer ns0 q = true) ∧
        should_answer ns0 qT = true) ∧
      handle_query ns0 nn0 7 ([qA] ++ [qT]) ("init") =
        responseFor ns0 nn0 7 qT :=
  ⟨⟨by decide, by decide, by decide⟩,
    last_question_wins ns0 nn0 7 ("init") [qA] qT (by decide) (by decide)
      (by decide)⟩

/-! ## C7: ADDRESS6 flags -/

/-- C7: for an answerable question, an ADDRESS6 (AAAA) query yields a
response with an empty answer section and flags `QR` only, while every other
answerable record type yields flags `QR AA`. -/
theorem aaaa_nonauthoritative (ns : Nameserver) (nn : Nat → String)
    (id : Nat) (q : Question) (_hans : should_answer ns q = true) :
    (q.rdtype = rdAAAA →
      responseFor ns nn id q =
        some (create_response id 0 0 ("QR") (questionText q) ("") ("")
          (""))) ∧
    (q.rdtype ≠ rdAAAA →
      ∃ ans, responseFor ns nn id q =
        some (create_response id 0 0 ("QR AA") (questionText q) ans ("")
          (""))) := by
  constructor
  · intro h
    have ha : answerFor ns nn q = some ("") := by
      unfold answerFor
      rw [if_pos h]
    unfold responseFor
    rw [ha]
    simp [flagsFor, h]
  · intro h
    obtain ⟨ans, ha⟩ :=
      Option.isSome_iff_exists.mp (answerFor_isSome ns nn q)
    refine ⟨ans, ?_⟩
    unfold responseFor
    rw [ha]
    simp [flagsFor, h]

/-- C7 (witness): the theorem applied to the ADDRESS6 question `q6`. -/
theorem aaaa_nonauthoritative_witness :
    should_answer ns0 q6 = true ∧
      ((q6.rdtype = rdAAAA →
        responseFor ns0 nn0 7 q6 =
          some (create_response 7 0 0 ("QR") (questionText q6) ("") ("")
            (""))) ∧
      (q6.rdtype ≠ rdAAAA →
        ∃ ans, responseFor ns0 nn0 7 q6 =
          some (create_response 7 0 0 ("QR AA") (questionText q6) ans ("")
            ("")))) :=
  ⟨by decide, aaaa_nonauthoritative ns0 nn0 7 q6 (by decide)⟩

/-! ## C8: sections omitted when empty -/

/-- C8: the built textual response always carries the id, opcode, rcode,
flags and question section, and each of the answer, authority and additional
sections is emitted — header plus body — exactly when its content is
non-empty, and is omitted entirely otherwise. -/
theorem create_response_sections (id opcode rcode : Nat)
    (flags question answer authority additional : String) :
    create_response id opcode rcode flags question answer authority
        additional =
      responseHeader id opcode rcode flags question ++
        (if answer = ("") then ("") else (";ANSWER\n") ++ answer ++ ("\n")) ++
        (if authority = ("") then ("")
          else (";AUTHORITY\n") ++ authority ++ ("\n")) ++
        (if additional = ("") then ("")
          else (";ADDITIONAL\n") ++ additional ++ ("\n")) := by
  unfold create_response responseHeader
  by_cases h1 : answer = ("") <;> by_cases h2 : authority = ("") <;>
    by_cases h3 : additional = ("") <;>
    simp [h1, h2, h3, String.append_assoc, String.append_empty]

/-! ## The TEXT payload as a semicolon join -/

theorem strMk_append (a : String) (l : List Char) :
    String.mk (a.data ++ l) = a ++ String.mk l := by
  apply String.ext
  rw [String.data_append]

theorem txt_aux (nn : Nat → String) :
    ∀ (rs : List Replica) (acc : String),
      rs.foldl
          (fun acc p => acc ++ nn p.type ++ (" ") ++ p.addr ++ (":") ++
            Nat.repr p.port ++ (";")) acc =
        acc ++ strJoin (rs.map (fun p => replicaSegment nn p ++ (";"))) := by
  intro rs
  induction rs with
  | nil => intro acc; simp [strJoin, String.append_empty]
  | cons p t ih =>
    intro acc
    rw [List.foldl_cons, ih]
    simp [strJoin, replicaSegment, String.append_assoc]

theorem semis_dropLast :
    ∀ segs : List String,
      String.mk ((strJoin (segs.map (fun s => s ++ (";")))).data.dropLast) =
        semijoin segs := by
  intro segs
  induction segs with
  | nil => rfl
  | cons s t ih =>
    cases t with
    | nil =>
      show String.mk (((s ++ (";")) ++ ("")).data.dropLast) = s
      rw [String.append_empty, String.data_append]
      have hsemi : (";" : String).data = [(';' : Char)] := rfl
      rw [hsemi, List.dropLast_concat]
    | cons s2 t2 =>
      have hne : (strJoin (((s2 ++ (";")) :: t2.map (fun s => s ++ (";"))))).data ≠
          [] := by
        rw [strJoin, String.data_append, String.data_append]
        simp
      calc String.mk ((strJoin (((s :: s2 :: t2).map
              (fun s => s ++ (";"))))).data.dropLast)
          = String.mk (((s ++ (";")).data ++
              (strJoin ((s2 ++ (";")) :: t2.map
                (fun s => s ++ (";")))).data).dropLast) := by
            simp [strJoin, String.data_append]
        _ = String.mk ((s ++ (";")).data ++
              (strJoin ((s2 ++ (";")) :: t2.map
                (fun s => s ++ (";")))).data.dropLast) := by
            rw [List.dropLast_append_of_ne_nil _ hne]
        _ = (s ++ (";")) ++ String.mk ((strJoin (((s2 :: t2).map
              (fun s => s ++ (";"))))).data.dropLast) := by
            rw [List.map_cons, strMk_append]
        _ = (s ++ (";")) ++ semijoin (s2 :: t2) := by rw [ih]
        _ = semijoin (s :: s2 :: t2) := rfl

theorem txtresponse_eq_semijoin (nn : Nat → String) (rs : List Replica) :
    txtresponse nn rs = semijoin (rs.map (replicaSegment nn)) := by
  unfold txtresponse
  rw [txt_aux nn rs (""), String.empty_append]
  have h := semis_dropLast (rs.map (replicaSegment nn))
  rw [List.map_map] at h
  simpa [Function.comp] using h

/-! ## C4: TEXT answers -/

/-- C4: for every replica view, an answerable TEXT query yields exactly one
answer record whose quoted payload is the semicolon join of one
`"<role-name> <address>:<port>"` segment per replica, in view order, with no
trailing semicolon. -/
theorem text_query_single_record (ns : Nameserver) (nn : Nat → String)
    (q : Question) (_hans : should_answer ns q = true)
    (h : q.rdtype = rdTXT) :
    answerFor ns nn q =
      some (txtAnswerLine q
        (semijoin (ns.replicas.map (replicaSegment nn)))) := by
  unfold answerFor
  rw [if_neg (by rw [h]; decide), if_neg (by rw [h]; decide), if_pos h,
    create_answer_section_TXT30 q ("") (txtresponse nn ns.replicas) h,
    txtresponse_eq_semijoin]

/-- C4 (witness): the theorem applied to the TEXT question `qT` against the
two-replica view of `ns0`. -/
theorem text_query_single_record_witness :
    (should_answer ns0 qT = true ∧ qT.rdtype = rdTXT) ∧
      answerFor ns0 nn0 qT =
        some (txtAnswerLine qT
          (semijoin (ns0.replicas.map (replicaSegment nn0)))) :=
  ⟨⟨by decide, by decide⟩,
    text_query_single_record ns0 nn0 qT (by decide) (by decide)⟩

/-! ## C5: ADDRESS answers -/

/-- C5: for every replica view of size N, an answerable ADDRESS query yields
the concatenation of exactly N answer records, one per replica, whose
payloads are the replica addresses in exactly the view order. -/
theorem address_query_per_replica (ns : Nameserver) (nn : Nat → String)
    (q : Question) (_hans : should_answer ns q = true) (h : q.rdtype = rdA) :
    answerFor ns nn q =
      some (strJoin (ns.replicas.map (fun r => addrAnswerLine q r.addr))) ∧
      (ns.replicas.map (fun r => addrAnswerLine q r.addr)).length =
        ns.replicas.length := by
  constructor
  · unfold answerFor
    rw [if_neg (by rw [h]; decide), if_pos h,
      List.map_congr_left (fun a _ => create_answer_section_A30 q a none h),
      optConcat_map_some]
    unfold aresponse get_addresses
    rw [List.map_map]
    rfl
  · simp

/-- C5 (witness): the theorem applied to the ADDRESS question `qA` against
the two-replica view of `ns0`. -/
theorem address_query_per_replica_witness :
    (should_answer ns0 qA = true ∧ qA.rdtype = rdA) ∧
      (answerFor ns0 nn0 qA =
        some (strJoin (ns0.replicas.map (fun r => addrAnswerLine qA r.addr))) ∧
      (ns0.replicas.map (fun r => addrAnswerLine qA r.addr)).length =
        ns0.replicas.length) :=
  ⟨⟨by decide, by decide⟩,
    address_query_per_replica ns0 nn0 qA (by decide) (by decide)⟩

/-! ## C6: SERVICE answers -/

theorem create_srv_answer_section30 (q : Question) (port : Nat)
    (addr : String) (h : q.rdtype = rdSRV) :
    create_srv_answer_section q 30 1 0 100 port addr =
      srvAnswerLine q port addr := by
  unfold create_srv_answer_section srvAnswerLine
  rw [h, rrclassName_one, rrtypeName_SRV]

/-- C6: an answerable SERVICE query against a nameserver configured for
`domain` yields one answer record per replica `(address, port)` pair, each
with priority 0, weight 100, the queried name as owner, and target equal to
the replica address with `.ipaddr.<domain>.` appended. -/
theorem srv_query_records (domain today : String) (rs : List Replica)
    (nn : Nat → String) (q : Question)
    (_hans : should_answer (mkNameserver domain rs today) q = true)
    (h : q.rdtype = rdSRV) :
    answerFor (mkNameserver domain rs today) nn q =
      some (strJoin (rs.map (fun r =>
        srvAnswerLine q r.port
          (r.addr ++ ((".ipaddr.") ++ domain ++ (".")))))) := by
  unfold answerFor
  rw [if_neg (by rw [h]; decide), if_neg (by rw [h]; decide),
    if_neg (by rw [h]; decide), if_neg (by rw [h]; decide),
    if_neg (by rw [h]; decide), if_pos h]
  simp only [srvresponse, get_addressportpairs, mkNameserver, List.map_map,
    Function.comp_def]
  rw [List.map_congr_left (fun r _ =>
    create_srv_answer_section30 q r.port
      (r.addr ++ ((".ipaddr.") ++ domain ++ ("."))) h)]

/-- C6 (witness): the theorem applied to the SERVICE question `qS` against
the two-replica configuration for `concoord.com`. -/
theorem srv_query_records_witness :
    (should_answer (mkNameserver ("concoord.com") [rep1, rep2] ("20240601"))
        qS = true ∧ qS.rdtype = rdSRV) ∧
      answerFor (mkNameserver ("concoord.com") [rep1, rep2] ("20240601"))
          nn0 qS =
        some (strJoin ([rep1, rep2].map (fun r =>
          srvAnswerLine qS r.port
            (r.addr ++ ((".ipaddr.") ++ ("concoord.com") ++ ("."))))))  :=
  ⟨⟨by decide, by decide⟩,
    srv_query_records ("concoord.com") ("20240601") [rep1, rep2] nn0 qS
      (by decide) (by decide)⟩

end Concoord
